import Mathlib

/-!
Verification of the SEN55 I2C driver library (sen55.h / sen55.cpp).

The development shallowly embeds the protocol layer of the driver:
the CRC-8 checksum engine (`I2C_calc_CRC`), the response decoder
(`I2C_ReadToBuffer`), the outbound frame builders (the cases of
`I2C_fill_buffer`), the byte-to-value conversion routines, and the
orchestration of the public operations (`Instruct`, `GetValues`,
`GetValuesPM`, `SetAutoCleanInt`, `GetStatusReg`, the tuning and
compensation getters/setters).

Machine integers are modelled as `Nat` (unsigned) and `Int` (signed),
with explicit reductions modulo `2^8`, `2^16`, `2^32` at the points
where the C code truncates.  Bus I/O is modelled by passing the byte
sequence the device returns as an explicit argument, and by recording
the bytes written to the bus (and the blocking delays) as an explicit
event list.  Floating-point scaling of measurement values is outside
the scope of the claims and is not modelled.
-/

namespace SEN55

/-! ## Error codes (sen55.h) -/

def SEN55_ERR_OK : Nat := 0x00
def SEN55_ERR_DATALENGTH : Nat := 0x01
def SEN55_ERR_UNKNOWNCMD : Nat := 0x02
def SEN55_ERR_ACCESSRIGHT : Nat := 0x03
def SEN55_ERR_PARAMETER : Nat := 0x04
def SEN55_ERR_OUTOFRANGE : Nat := 0x28
def SEN55_ERR_CMDSTATE : Nat := 0x43
def SEN55_ERR_TIMEOUT : Nat := 0x50
def SEN55_ERR_PROTOCOL : Nat := 0x51
def SEN55_ERR_FIRMWARE : Nat := 0x88

/-! ## Command opcodes (sen55.h) -/

def SEN55_START_MEASUREMENT : Nat := 0x0021
def SEN55_START_RHTG_MEASUREMENT : Nat := 0x0037
def SEN55_STOP_MEASUREMENT : Nat := 0x0104
def SEN55_READ_DATA_RDY_FLAG : Nat := 0x0202
def SEN55_READ_MEASURED_VALUE : Nat := 0x03C4
def SEN55_READ_MEASURED_VALUE_PM : Nat := 0x0413
def SEN55_TEMP_COMP : Nat := 0x60B2
def SEN55_WARM_START_PARAM : Nat := 0x60C6
def SEN55_VOC_TUNING : Nat := 0x60D0
def SEN55_NOX_TUNING : Nat := 0x60E1
def SEN55_RHT_ACCEL : Nat := 0x60F7
def SEN55_VOC_ALGO : Nat := 0x6181
def SEN55_START_FAN_CLEANING : Nat := 0x5607
def SEN55_AUTO_CLEANING_INTERVAL : Nat := 0x8004
def SEN55_READ_PRODUCT_NAME : Nat := 0xD014
def SEN55_READ_SERIAL_NUMBER : Nat := 0xD033
def SEN55_READ_VERSION : Nat := 0xD100
def SEN55_READ_DEVICE_REGISTER : Nat := 0xD206
def SEN55_CLEAR_DEVICE_REGISTER : Nat := 0xD210
def SEN55_RESET : Nat := 0xD304

/-! ## Checksum engine: `SEN55::I2C_calc_CRC` (sen55.cpp)

C source: `crc = 0xFF`; for each of the 2 data bytes: `crc ^= data[i]`,
then 8 rounds of: if the high bit is set, `crc = (crc << 1) ^ 0x31`,
else `crc = crc << 1` (all on `uint8_t`, i.e. modulo 256). -/

/-- One shift round of the CRC-8 loop body on an 8-bit accumulator. -/
def crcShift (c : Nat) : Nat :=
  if 128 ≤ c % 256 then (c % 256 * 2 % 256) ^^^ 0x31 else c % 256 * 2 % 256

/-- Apply `crcShift` a given number of times (the inner `for bit` loop). -/
def crcBits : Nat → Nat → Nat
  | 0, c => c
  | n + 1, c => crcBits n (crcShift c)

/-- Process one input byte: XOR into the accumulator, then 8 shift rounds. -/
def crcByte (c b : Nat) : Nat := crcBits 8 ((c ^^^ b) % 256)

/-- `SEN55::I2C_calc_CRC`: CRC-8 over a 2-byte word, polynomial 0x31,
initial value 0xFF, no final XOR, MSB first. -/
def I2C_calc_CRC (a b : Nat) : Nat := crcByte (crcByte 0xFF a) b

/-! ## Response decoder: `SEN55::I2C_ReadToBuffer` (sen55.cpp)

The device answers with groups of 3 bytes: 2 data bytes followed by the
CRC over those 2 bytes.  `count` is the number of *data* bytes the
caller wants; the driver requests `count / 2 * 3` wire bytes (`uint8_t`
arithmetic, hence the reduction modulo 256).  `chk_zero` is the
zero-terminated mode used for the serial-number / product-name strings.
The bytes actually received from the bus are the explicit `bus`
argument; `requestFrom`'s return value is its length. -/

structure ReadResult where
  err : Nat
  buf : List Nat
deriving DecidableEq, Repr

/-- End of the receive loop of `I2C_ReadToBuffer` (the code after the
`while`): no byte at all is a protocol error, the exact requested count
is OK, anything else is the data-length error. -/
def readFinish (count : Nat) (acc : List Nat) : ReadResult :=
  if acc.length = 0 then ⟨SEN55_ERR_PROTOCOL, acc⟩
  else if acc.length = count then ⟨SEN55_ERR_OK, acc⟩
  else ⟨SEN55_ERR_DATALENGTH, acc⟩

/-- The `while (_i2cPort->available())` loop of `I2C_ReadToBuffer`:
take 3 bytes; on CRC mismatch return the protocol error at once (the
bad group's bytes are not appended); otherwise append the 2 data bytes;
in zero-terminated mode a decoded `0x0000` word returns OK immediately
and the remaining bus bytes are flushed unread; once `count` data bytes
are collected the loop breaks.  A trailing partial group (fewer than 3
bytes left) is appended verbatim after the loop, as in the source. -/
def readLoop (chk : Bool) (count : Nat) : List Nat → List Nat → ReadResult
  | a :: b :: c :: rest, acc =>
    if c = I2C_calc_CRC a b then
      if chk = true ∧ a = 0 ∧ b = 0 then ⟨SEN55_ERR_OK, acc ++ [a, b]⟩
      else if count ≤ (acc ++ [a, b]).length then readFinish count (acc ++ [a, b])
      else readLoop chk count rest (acc ++ [a, b])
    else ⟨SEN55_ERR_PROTOCOL, acc⟩
  | leftover, acc => readFinish count (acc ++ leftover)

/-- `SEN55::I2C_ReadToBuffer`.  If the number of received bytes differs
from the expected `count / 2 * 3` the code returns `SEN55_ERR_PROTOCOL`
with the receive buffer still empty. -/
def I2C_ReadToBuffer (count : Nat) (chk_zero : Bool) (bus : List Nat) : ReadResult :=
  if bus.length = count / 2 * 3 % 256 then readLoop chk_zero count bus []
  else ⟨SEN55_ERR_PROTOCOL, []⟩

/-! ## Helper views of the wire format used by the theorems -/

/-- Byte sequence of a list of 3-byte wire groups `(hi, lo, crc)`. -/
def groupBytes : List (Nat × Nat × Nat) → List Nat
  | [] => []
  | (a, b, c) :: t => a :: b :: c :: groupBytes t

/-- Data bytes of a list of 3-byte wire groups, checksums stripped. -/
def wordBytes : List (Nat × Nat × Nat) → List Nat
  | [] => []
  | (a, b, _) :: t => a :: b :: wordBytes t

/-! ## Conversion routines (sen55.cpp) and receive-buffer persistence

`_Receive_BUF` is a member array that is NOT cleared between
transactions: a read overwrites only the positions it decodes.  We
model its content as a byte list; `updateReceiveBuf old new` is the
array after a read that decoded `new` over previous content `old`. -/

def updateReceiveBuf (old new : List Nat) : List Nat := new ++ old.drop new.length

/-- `SEN55::byte_to_Uint16_t`: big-endian 2-byte read at offset `x`. -/
def byte_to_Uint16_t (buf : List Nat) (x : Nat) : Nat :=
  buf.getD x 0 % 256 * 256 + buf.getD (x + 1) 0 % 256

/-- Two's-complement reinterpretation of a 16-bit pattern, as performed
by storing into an `int16_t`. -/
def toInt16 (n : Nat) : Int :=
  if n % 65536 < 32768 then (n % 65536 : Nat) else (n % 65536 : Nat) - 65536

/-- `SEN55::byte_to_int16_t`: big-endian 2-byte read, signed. -/
def byte_to_int16_t (buf : List Nat) (x : Nat) : Int :=
  toInt16 (buf.getD x 0 % 256 * 256 + buf.getD (x + 1) 0 % 256)

/-- `SEN55::byte_to_U32`: big-endian 4-byte read at offset `x`
(the union trick `conv.array[3-i] = _Receive_BUF[x+i]` on a
little-endian host). -/
def byte_to_U32 (buf : List Nat) (x : Nat) : Nat :=
  buf.getD x 0 % 256 * 16777216 + buf.getD (x + 1) 0 % 256 * 65536
    + buf.getD (x + 2) 0 % 256 * 256 + buf.getD (x + 3) 0 % 256

/-- Truncating store of an `int` value into an `int16_t` field
(wrap-around modulo 2^16, reinterpreted signed). -/
def wrap16 (z : Int) : Int := (z + 32768) % 65536 - 32768

/-- The 16-bit pattern (`>> 8 & 0xff` / `& 0xff` pair) that an
`int16_t` value puts on the wire, as a number in `[0, 65536)`. -/
def encode16 (z : Int) : Nat := (z % 65536).toNat

/-! ## Bus events and driver session state

A transaction step is recorded as an event: a write of a complete
frame to the bus (`I2C_SetPointer` on a previously filled send
buffer), a `requestFrom` for a number of wire bytes, or a blocking
`delay(ms)`.  The session object state carries the `_started` flag,
the cached firmware level and the `data16`/`data32` members used to
pass set-values to `I2C_fill_buffer`. -/

inductive Event where
  | send (frame : List Nat)
  | busRead (cnt : Nat)
  | delayMs (ms : Nat)
deriving DecidableEq, Repr

structure SENState where
  started : Bool
  FW_Major : Nat
  FW_Minor : Nat
  data32 : Nat
  data16 : Nat
deriving DecidableEq, Repr

/-- Default case of `SEN55::I2C_fill_buffer`: a bare 2-byte opcode
frame, high byte first. -/
def cmdFrame (cmd : Nat) : List Nat := [cmd / 256 % 256, cmd % 256]

/-- `SEN55::Instruct`: fan cleaning is refused while not measuring;
otherwise the opcode frame is sent (`I2C_SetPointer` always returns
`SEN55_ERR_OK` for a non-empty send buffer, which `I2C_fill_buffer`
guarantees here, so the success branch is always taken): starting
sets `_started` and blocks 1000 ms as the settle delay, stopping
clears it, reset clears it and re-inits the bus with two 500 ms
delays. -/
def Instruct (st : SENState) (type : Nat) : SENState × List Event × Bool :=
  if type = SEN55_START_FAN_CLEANING ∧ st.started = false then (st, [], false)
  else
    if type = SEN55_START_MEASUREMENT ∨ type = SEN55_START_RHTG_MEASUREMENT then
      (⟨true, st.FW_Major, st.FW_Minor, st.data32, st.data16⟩,
       [Event.send (cmdFrame type), Event.delayMs 1000], true)
    else if type = SEN55_STOP_MEASUREMENT then
      (⟨false, st.FW_Major, st.FW_Minor, st.data32, st.data16⟩,
       [Event.send (cmdFrame type)], true)
    else if type = SEN55_RESET then
      (⟨false, st.FW_Major, st.FW_Minor, st.data32, st.data16⟩,
       [Event.send (cmdFrame type), Event.delayMs 500, Event.delayMs 500], true)
    else (st, [Event.send (cmdFrame type)], true)

/-- Events of `SEN55::I2C_SetPointer_Read` for an already-filled
2-byte opcode frame: write the frame, wait 5 ms, then `requestFrom`
the expected wire byte count. -/
def readEvents (cmd count : Nat) : List Event :=
  [Event.send (cmdFrame cmd), Event.delayMs 5, Event.busRead (count / 2 * 3 % 256)]

/-- `SEN55::GetValues` (value scaling to floats not modelled; the
result is the decoder's error code).  While idle, `start()` (laser)
or `startRHTG()` (no laser) runs first, followed by a 100 ms delay,
then the 16 data bytes of the measured values are read. -/
def GetValues (st : SENState) (laser : Bool) (bus : List Nat) :
    SENState × List Event × Nat :=
  if st.started = false then
    let r := Instruct st (if laser then SEN55_START_MEASUREMENT
                          else SEN55_START_RHTG_MEASUREMENT)
    if r.2.2 = false then (r.1, r.2.1, SEN55_ERR_CMDSTATE)
    else
      (r.1, r.2.1 ++ [Event.delayMs 100] ++ readEvents SEN55_READ_MEASURED_VALUE 16,
       (I2C_ReadToBuffer 16 false bus).err)
  else
    (st, readEvents SEN55_READ_MEASURED_VALUE 16, (I2C_ReadToBuffer 16 false bus).err)

/-- `SEN55::GetValuesPM` (value scaling to floats not modelled).
While idle, `start()` runs first (no extra 100 ms delay in this
routine), then the 20 data bytes of the PM values are read. -/
def GetValuesPM (st : SENState) (bus : List Nat) : SENState × List Event × Nat :=
  if st.started = false then
    let r := Instruct st SEN55_START_MEASUREMENT
    if r.2.2 = false then (r.1, r.2.1, SEN55_ERR_CMDSTATE)
    else
      (r.1, r.2.1 ++ readEvents SEN55_READ_MEASURED_VALUE_PM 20,
       (I2C_ReadToBuffer 20 false bus).err)
  else
    (st, readEvents SEN55_READ_MEASURED_VALUE_PM 20, (I2C_ReadToBuffer 20 false bus).err)

/-! ## Outbound frames: `SEN55::I2C_fill_buffer` cases (sen55.cpp)

The source builds each case of its `switch (cmd)` into `_Send_BUF`;
each case is embedded as its own frame-building function. -/

/-- `I2C_fill_buffer`, case `SEN55_SET_AUTO_CLEANING_INTERVAL`:
opcode `0x80, 0x04`, then the four bytes of the member `data32`
big-endian as two 2-byte words, each followed by its CRC. -/
def fillAutoCleanFrame (d32 : Nat) : List Nat :=
  [0x80, 0x04,
   d32 / 16777216 % 256, d32 / 65536 % 256,
   I2C_calc_CRC (d32 / 16777216 % 256) (d32 / 65536 % 256),
   d32 / 256 % 256, d32 % 256,
   I2C_calc_CRC (d32 / 256 % 256) (d32 % 256)]

/-- `SEN55::SetAutoCleanInt`: stops a running measurement first,
sends the auto-clean-interval frame, restarts if it had stopped.
NOTE (faithful to the source): the frame is built from the member
`data32`, and `SetAutoCleanInt` never assigns its argument `val` to
`data32` (unlike `SetWarmStart`/`SetRHTAccelMode`, which do
`data16 = val`), so `val` is dead.  `I2C_SetPointer` and the
stop/start instructions always succeed at this modelling level, so
the result code is `SEN55_ERR_OK`. -/
def SetAutoCleanInt (st : SENState) (val : Nat) : SENState × List Event × Nat :=
  if st.started = true then
    let rStop := Instruct st SEN55_STOP_MEASUREMENT
    if rStop.2.2 = false then (rStop.1, rStop.2.1, SEN55_ERR_CMDSTATE)
    else
      let rStart := Instruct rStop.1 SEN55_START_MEASUREMENT
      (rStart.1,
       rStop.2.1 ++ [Event.send (fillAutoCleanFrame rStop.1.data32)] ++ rStart.2.1,
       if rStart.2.2 = true then SEN55_ERR_OK else SEN55_ERR_PROTOCOL)
  else
    (st, [Event.send (fillAutoCleanFrame st.data32)], SEN55_ERR_OK)

/-! ## VOC algorithm state frame: `I2C_fill_buffer`, case `SEN55_SET_VOC_ALGO`

The C loop is, with `i` starting after the 2 opcode bytes:

  for (int j = 0, k = 0 ; j < VOC_ALO_SIZE;) {
    _Send_BUF[i++] = vv[j++] & 0xff;
    if (k++ > 2) {
      uint8_t st = i - j;
      _Send_BUF[i++] = I2C_calc_CRC(&_Send_BUF[st]);
      k = 0;
    }
  }

`fuel` counts the remaining loop iterations (`VOC_ALO_SIZE - j`, and
`j < VOC_ALO_SIZE` iterates exactly `VOC_ALO_SIZE` times since `j`
increments once per iteration); `buf` is the send buffer built so
far, so `i = buf.length`. -/

def vocAlgoLoop (vv : List Nat) : Nat → Nat → Nat → List Nat → List Nat
  | 0, _, _, buf => buf
  | fuel + 1, j, k, buf =>
    let buf1 := buf ++ [vv.getD j 0 % 256]
    if k > 2 then
      let st := buf1.length - (j + 1)
      vocAlgoLoop vv fuel (j + 1) 0
        (buf1 ++ [I2C_calc_CRC (buf1.getD st 0) (buf1.getD (st + 1) 0)])
    else vocAlgoLoop vv fuel (j + 1) (k + 1) buf1

/-- `I2C_fill_buffer`, case `SEN55_SET_VOC_ALGO` (`VOC_ALO_SIZE = 8`):
opcode `0x61, 0x81` followed by the loop above over the 8 blob
bytes. -/
def fillVocAlgoFrame (vv : List Nat) : List Nat :=
  vocAlgoLoop vv 8 0 0 [0x61, 0x81]

/-! ## Temperature compensation: `SEN55::GetTmpComp` / `SEN55::SetTmpComp`

`GetTmpComp` reads 6 data bytes and unscales in place:
`offset = byte_to_int16_t(0) / 200`, `slope = byte_to_int16_t(2) / 1000`
(C `int` division truncates toward zero, i.e. `Int.tdiv`),
`time = byte_to_Uint16_t(4)`.  `SetTmpComp` scales in place
(`offset * 200`, `slope * 1000`, stored back into the `int16_t`
fields, hence the 16-bit wrap) and emits the
`I2C_fill_buffer(SEN55_SET_TEMP_COMP)` frame built from the struct. -/

def GetTmpComp (oldBuf bus : List Nat) : Nat × (Int × Int × Nat) :=
  let r := I2C_ReadToBuffer 6 false bus
  let buf := updateReceiveBuf oldBuf r.buf
  (r.err, ((byte_to_int16_t buf 0).tdiv 200, (byte_to_int16_t buf 2).tdiv 1000,
           byte_to_Uint16_t buf 4))

/-- `SEN55::SetTmpComp` followed by `I2C_fill_buffer`'s
`SEN55_SET_TEMP_COMP` case: returns the frame written to the bus
(the transaction itself always reports `SEN55_ERR_OK`). -/
def SetTmpComp (offset slope : Int) (time : Nat) : List Nat :=
  let o := encode16 (wrap16 (offset * 200))
  let s := encode16 (wrap16 (slope * 1000))
  let t := time % 65536
  [0x60, 0xB2, o / 256, o % 256, I2C_calc_CRC (o / 256) (o % 256),
   s / 256, s % 256, I2C_calc_CRC (s / 256) (s % 256),
   t / 256, t % 256, I2C_calc_CRC (t / 256) (t % 256)]

/-- A well-formed 9-byte device response carrying the three raw
temperature-compensation words (each < 65536), as checksum groups. -/
def tmpGroups (ow sw tw : Nat) : List (Nat × Nat × Nat) :=
  [(ow / 256, ow % 256, I2C_calc_CRC (ow / 256) (ow % 256)),
   (sw / 256, sw % 256, I2C_calc_CRC (sw / 256) (sw % 256)),
   (tw / 256, tw % 256, I2C_calc_CRC (tw / 256) (tw % 256))]

/-- Wire bytes of such a response. -/
def mkTmpBus (ow sw tw : Nat) : List Nat := groupBytes (tmpGroups ow sw tw)

/-! ## Status register: `SEN55::GetStatusReg` (sen55.cpp)

The routine requires firmware ≥ 2.0 (`FWCheck(2,0)`; the model assumes
the firmware level is already cached, i.e. `_FW_Major ≠ 0`, so the
probe-on-demand path is not taken), reads 4 data bytes from
`SEN55_READ_DEVICE_REGISTER`, always sends
`SEN55_CLEAR_DEVICE_REGISTER` afterwards (no effect on the returned
pair, so not recorded here), and on a successful read decodes the
status from response bytes 1 and 3. -/

def STATUS_OK_55 : Nat := 0
def STATUS_SPEED_ERROR_55 : Nat := 0b00000001
def STATUS_LASER_ERROR_55 : Nat := 0b00000010
def STATUS_FAN_ERROR_55 : Nat := 0b00000100
def STATUS_GAS_ERROR_55 : Nat := 0b00001000
def STATUS_RHT_ERROR_55 : Nat := 0b00010000
def STATUS_FAN_CLEAN_ACTIVE_55 : Nat := 0b00100000

/-- The bit-test sequence of `GetStatusReg` on receive-buffer bytes 1
(`x1`) and 3 (`x3`): speed-warning from bit 5 of byte 1; gas, RH/T,
laser and fan errors from bits 7..4 of byte 3; any error returns
`SEN55_ERR_OUTOFRANGE` with the accumulated bits, otherwise the
fan-clean-active bit (bit 3 of byte 1) is reported with
`SEN55_ERR_OK`. -/
def statusDecode (x1 x3 : Nat) : Nat × Nat :=
  let s1 := if x1 &&& 0b00100000 ≠ 0
            then STATUS_OK_55 ||| STATUS_SPEED_ERROR_55 else STATUS_OK_55
  let s2 := if x3 &&& 0b10000000 ≠ 0 then s1 ||| STATUS_GAS_ERROR_55 else s1
  let s3 := if x3 &&& 0b01000000 ≠ 0 then s2 ||| STATUS_RHT_ERROR_55 else s2
  let s4 := if x3 &&& 0b00100000 ≠ 0 then s3 ||| STATUS_LASER_ERROR_55 else s3
  let s5 := if x3 &&& 0b00010000 ≠ 0 then s4 ||| STATUS_FAN_ERROR_55 else s4
  if s5 ≠ STATUS_OK_55 then (s5, SEN55_ERR_OUTOFRANGE)
  else if x1 &&& 0b00001000 ≠ 0 then (STATUS_FAN_CLEAN_ACTIVE_55, SEN55_ERR_OK)
  else (STATUS_OK_55, SEN55_ERR_OK)

def GetStatusReg (st : SENState) (oldBuf bus : List Nat) : Nat × Nat :=
  if 2 ≤ st.FW_Major then
    let r := I2C_ReadToBuffer 4 false bus
    if r.err = SEN55_ERR_OK then
      let buf := updateReceiveBuf oldBuf r.buf
      statusDecode (buf.getD 1 0) (buf.getD 3 0)
    else (STATUS_OK_55, r.err)
  else (STATUS_OK_55, SEN55_ERR_FIRMWARE)

/-! ## Get accessors with out-parameters (sen55.cpp)

`GetWarmStart`, `GetRHTAccelMode`, `GetAutoCleanInt`,
`GetNoxAlgorithm`, `GetVocAlgorithm` and `GetTmpComp` all share the
same shape: fill the read opcode, `I2C_SetPointer_Read(n)`, then
assign the out-parameter from `_Receive_BUF` UNCONDITIONALLY, and
only then return the read's error code.  Each model takes the
previous `_Receive_BUF` content and the bus bytes, and returns
`(error code, decoded out-value)`; the command write is a bare opcode
frame and does not influence the returned pair. -/

def GetWarmStart (oldBuf bus : List Nat) : Nat × Nat :=
  let r := I2C_ReadToBuffer 2 false bus
  (r.err, byte_to_Uint16_t (updateReceiveBuf oldBuf r.buf) 0)

def GetRHTAccelMode (oldBuf bus : List Nat) : Nat × Nat :=
  let r := I2C_ReadToBuffer 2 false bus
  (r.err, byte_to_Uint16_t (updateReceiveBuf oldBuf r.buf) 0)

def GetAutoCleanInt (oldBuf bus : List Nat) : Nat × Nat :=
  let r := I2C_ReadToBuffer 4 false bus
  (r.err, byte_to_U32 (updateReceiveBuf oldBuf r.buf) 0)

def GetNoxAlgorithm (oldBuf bus : List Nat) :
    Nat × (Int × Int × Int × Int × Int × Int) :=
  let r := I2C_ReadToBuffer 12 false bus
  let buf := updateReceiveBuf oldBuf r.buf
  (r.err, (byte_to_int16_t buf 0, byte_to_int16_t buf 2, byte_to_int16_t buf 4,
           byte_to_int16_t buf 6, byte_to_int16_t buf 8, byte_to_int16_t buf 10))

def GetVocAlgorithm (oldBuf bus : List Nat) :
    Nat × (Int × Int × Int × Int × Int × Int) :=
  let r := I2C_ReadToBuffer 12 false bus
  let buf := updateReceiveBuf oldBuf r.buf
  (r.err, (byte_to_int16_t buf 0, byte_to_int16_t buf 2, byte_to_int16_t buf 4,
           byte_to_int16_t buf 6, byte_to_int16_t buf 8, byte_to_int16_t buf 10))

/-! ## Supporting lemmas -/

lemma groupBytes_length (gs : List (Nat × Nat × Nat)) :
    (groupBytes gs).length = 3 * gs.length := by
  induction gs with
  | nil => rfl
  | cons g t ih => obtain ⟨a, b, c⟩ := g; simp [groupBytes, ih]; omega

lemma wordBytes_length (gs : List (Nat × Nat × Nat)) :
    (wordBytes gs).length = 2 * gs.length := by
  induction gs with
  | nil => rfl
  | cons g t ih => obtain ⟨a, b, c⟩ := g; simp [wordBytes, ih]; omega

/-- Running the receive loop over well-formed groups (every checksum
correct, and in zero-terminated mode no `0x0000` word among them) that
do not yet fill the requested count just appends their data bytes. -/
lemma readLoop_skip (chk : Bool) (count : Nat) (gs : List (Nat × Nat × Nat))
    (rest acc : List Nat)
    (hgood : ∀ g ∈ gs, g.2.2 = I2C_calc_CRC g.1 g.2.1)
    (hnz : ∀ g ∈ gs, chk = true → ¬(g.1 = 0 ∧ g.2.1 = 0))
    (hlen : acc.length + 2 * gs.length < count) :
    readLoop chk count (groupBytes gs ++ rest) acc
      = readLoop chk count rest (acc ++ wordBytes gs) := by
  induction gs generalizing acc with
  | nil => simp [groupBytes, wordBytes]
  | cons g t ih =>
    obtain ⟨a, b, c⟩ := g
    have hg : c = I2C_calc_CRC a b := hgood (a, b, c) (by simp)
    have hz : chk = true → ¬(a = 0 ∧ b = 0) := hnz (a, b, c) (by simp)
    have hzf : ¬(chk = true ∧ a = 0 ∧ b = 0) := fun h => hz h.1 ⟨h.2.1, h.2.2⟩
    have hbr : ¬(count ≤ (acc ++ [a, b]).length) := by
      simp only [List.length_append, List.length_cons, List.length_nil] at hlen ⊢
      omega
    simp only [groupBytes, List.cons_append, readLoop]
    rw [if_pos hg, if_neg hzf, if_neg hbr]
    simp only [List.append_eq]
    have hrec := ih (acc ++ [a, b])
      (fun g hgm => hgood g (List.mem_cons_of_mem _ hgm))
      (fun g hgm => hnz g (List.mem_cons_of_mem _ hgm))
      (by simp only [List.length_append, List.length_cons, List.length_nil] at hlen ⊢
          omega)
    rw [hrec, List.append_assoc]
    simp [wordBytes]

/-- Running the receive loop over well-formed groups whose data bytes
exactly fill the requested (positive) count decodes them all and
returns OK. -/
lemma readLoop_full (chk : Bool) (count : Nat) (gs : List (Nat × Nat × Nat))
    (acc : List Nat)
    (hgood : ∀ g ∈ gs, g.2.2 = I2C_calc_CRC g.1 g.2.1)
    (hnz : ∀ g ∈ gs, chk = true → ¬(g.1 = 0 ∧ g.2.1 = 0))
    (hlen : acc.length + 2 * gs.length = count) (hpos : 0 < count) :
    readLoop chk count (groupBytes gs) acc = ⟨SEN55_ERR_OK, acc ++ wordBytes gs⟩ := by
  induction gs generalizing acc with
  | nil =>
    simp only [groupBytes, readLoop, readFinish, List.append_nil]
    simp at hlen
    rw [if_neg (by omega), if_pos hlen]
    simp [wordBytes]
  | cons g t ih =>
    obtain ⟨a, b, c⟩ := g
    have hg : c = I2C_calc_CRC a b := hgood (a, b, c) (by simp)
    have hz : chk = true → ¬(a = 0 ∧ b = 0) := hnz (a, b, c) (by simp)
    have hzf : ¬(chk = true ∧ a = 0 ∧ b = 0) := fun h => hz h.1 ⟨h.2.1, h.2.2⟩
    simp only [groupBytes, readLoop]
    rw [if_pos hg, if_neg hzf]
    by_cases hbr : count ≤ (acc ++ [a, b]).length
    · rw [if_pos hbr]
      have ht : t = [] := by
        have : t.length = 0 := by
          simp only [List.length_append, List.length_cons, List.length_nil] at hbr hlen
          omega
        exact List.length_eq_zero.mp this
      subst ht
      have hl2 : (acc ++ [a, b]).length = count := by
        simp only [List.length_append, List.length_cons, List.length_nil] at hlen ⊢
        omega
      simp only [readFinish]
      rw [if_neg (by omega), if_pos hl2]
      simp [wordBytes]
    · rw [if_neg hbr]
      have hrec := ih (acc ++ [a, b])
        (fun g hgm => hgood g (List.mem_cons_of_mem _ hgm))
        (fun g hgm => hnz g (List.mem_cons_of_mem _ hgm))
        (by simp only [List.length_append, List.length_cons, List.length_nil] at hlen ⊢
            omega)
      rw [hrec, List.append_assoc]
      simp [wordBytes]

lemma toInt16_lb (n : Nat) : -32768 ≤ toInt16 n := by
  unfold toInt16; split <;> omega

lemma toInt16_ub (n : Nat) : toInt16 n < 32768 := by
  unfold toInt16; split <;> omega

lemma wrap16_eq_self (z : Int) (h1 : -32768 ≤ z) (h2 : z < 32768) :
    wrap16 z = z := by
  unfold wrap16; omega

lemma encode16_toInt16 (w : Nat) (h : w < 65536) : encode16 (toInt16 w) = w := by
  unfold encode16 toInt16; split <;> omega

lemma tdiv_mul_cancel_of_dvd (z s : Int) (hs : s ≠ 0) (hd : s ∣ z) :
    z.tdiv s * s = z := by
  obtain ⟨k, rfl⟩ := hd
  rw [Int.mul_tdiv_cancel_left k hs, Int.mul_comm]

/-- The scale-by-`s` round trip on a raw 16-bit pattern `w` divisible
by `s`: unscale (truncating), rescale, truncating 16-bit store, wire
encode — gives back `w`. -/
lemma scale_roundtrip (w : Nat) (s : Int) (hw : w < 65536) (hs : s ≠ 0)
    (hd : s ∣ toInt16 w) :
    encode16 (wrap16 ((toInt16 w).tdiv s * s)) = w := by
  rw [tdiv_mul_cancel_of_dvd _ s hs hd,
      wrap16_eq_self _ (toInt16_lb w) (toInt16_ub w),
      encode16_toInt16 w hw]

/-- Decoding a well-formed temperature-compensation response yields OK
and the three unscaled fields. -/
lemma GetTmpComp_decode (oldBuf : List Nat) (ow sw tw : Nat)
    (h1 : ow < 65536) (h2 : sw < 65536) (h3 : tw < 65536) :
    GetTmpComp oldBuf (mkTmpBus ow sw tw)
      = (SEN55_ERR_OK,
         ((toInt16 ow).tdiv 200, (toInt16 sw).tdiv 1000, tw)) := by
  have hdec : I2C_ReadToBuffer 6 false (mkTmpBus ow sw tw)
      = ⟨SEN55_ERR_OK, wordBytes (tmpGroups ow sw tw)⟩ := by
    unfold I2C_ReadToBuffer mkTmpBus
    rw [if_pos (by rw [groupBytes_length]; rfl)]
    have := readLoop_full false 6 (tmpGroups ow sw tw) []
      (by intro g hg
          simp [tmpGroups] at hg
          rcases hg with h | h | h <;> subst h <;> rfl)
      (fun _ _ h => nomatch h) (by rfl) (by decide)
    simpa using this
  unfold GetTmpComp
  rw [hdec]
  have hwords : wordBytes (tmpGroups ow sw tw)
      = [ow / 256, ow % 256, sw / 256, sw % 256, tw / 256, tw % 256] := rfl
  simp only [hwords, updateReceiveBuf, List.cons_append, List.nil_append,
    byte_to_int16_t, byte_to_Uint16_t, List.getD_cons_zero, List.getD_cons_succ]
  have ho : ow / 256 % 256 * 256 + ow % 256 % 256 = ow := by omega
  have hs : sw / 256 % 256 * 256 + sw % 256 % 256 = sw := by omega
  have ht : tw / 256 % 256 * 256 + tw % 256 % 256 = tw := by omega
  rw [ho, hs, ht]

/-! ## The claims -/

/-! ## Claim C1: SetAutoCleanInt frame content -/

/-- C1 (code bug evidence): calling `SetAutoCleanInt 604800` on an
idle session whose `data32` member holds 0 (the member is never
written anywhere in the library) emits the frame that encodes 0, and
that frame differs from the frame encoding the caller's argument
604800.  The claim — that the frame encodes the caller's argument —
is the documented intent (`@param val : The new interval value`), but
the code never copies `val` into `data32`. -/
theorem C1_setAutoClean_sends_stale_data32 :
    (SetAutoCleanInt ⟨false, 2, 0, 0, 0⟩ 604800).2.1
      = [Event.send (fillAutoCleanFrame 0)]
    ∧ fillAutoCleanFrame 0
      = [0x80, 0x04, 0, 0, 0x81, 0, 0, 0x81]
    ∧ fillAutoCleanFrame 604800
      = [0x80, 0x04, 0x00, 0x09, I2C_calc_CRC 0x00 0x09,
         0x3A, 0x80, I2C_calc_CRC 0x3A 0x80]
    ∧ fillAutoCleanFrame 0 ≠ fillAutoCleanFrame 604800 := by decide

/-! ## Claim C2: frame shape invariant -/

/-- C2 (code bug evidence): for the 8-byte VOC algorithm state blob
`[1,2,3,4,5,6,7,8]` (W = 4 words) the emitted frame has 12 bytes, not
the `2 + 3*4 = 14` the invariant requires: the `k++ > 2` counter
inserts a CRC only after every FOURTH data byte, and the second CRC is
computed over `_Send_BUF[st..st+1] = vv[1], vv[2]` — bytes 2 and 3 of
the blob — instead of over the word `vv[6], vv[7]` preceding it.  The
invariant (each 2-byte word immediately followed by its own CRC) is
the documented wire contract, so this is a defect of the loop, not of
the claim. -/
theorem C2_vocAlgoFrame_malformed :
    fillVocAlgoFrame [1, 2, 3, 4, 5, 6, 7, 8]
      = [0x61, 0x81, 1, 2, 3, 4, I2C_calc_CRC 1 2, 5, 6, 7, 8, I2C_calc_CRC 2 3]
    ∧ (fillVocAlgoFrame [1, 2, 3, 4, 5, 6, 7, 8]).length = 12
    ∧ 12 ≠ 2 + 3 * 4
    ∧ I2C_calc_CRC 2 3 ≠ I2C_calc_CRC 7 8 := by decide

/-! ## Claim C3: temperature-compensation scaling round trip -/

/-- C3 counterexample: for the device raw offset word 250 (with slope
and time-constant words 0), `GetTmpComp` succeeds and unscales the
offset to `250 / 200 = 1` (truncating); writing the result back with
`SetTmpComp` rescales to `1 * 200 = 200`, so the offset word written
to the device is 200, not the original 250 — the round trip is NOT
exact for every device value. -/
theorem C3_tmpComp_roundtrip_cex :
    (GetTmpComp [] (mkTmpBus 250 0 0)).1 = SEN55_ERR_OK
    ∧ SetTmpComp (GetTmpComp [] (mkTmpBus 250 0 0)).2.1
        (GetTmpComp [] (mkTmpBus 250 0 0)).2.2.1
        (GetTmpComp [] (mkTmpBus 250 0 0)).2.2.2
      = [0x60, 0xB2, 0, 200, I2C_calc_CRC 0 200,
         0, 0, I2C_calc_CRC 0 0, 0, 0, I2C_calc_CRC 0 0]
    ∧ (200 : Nat) ≠ 250 := by decide

/-- C3 amended: the `GetTmpComp`-then-`SetTmpComp` round trip
reproduces the original device raw words exactly for every device
value whose raw offset word is divisible by 200 and whose raw slope
word is divisible by 1000 (as signed 16-bit values); in general the
truncating integer division makes the round trip snap each word to
the nearest-to-zero multiple of its scale (see the counterexample). -/
theorem C3_tmpComp_roundtrip (ow sw tw : Nat) (oldBuf : List Nat)
    (h1 : ow < 65536) (h2 : sw < 65536) (h3 : tw < 65536)
    (hd1 : (200 : Int) ∣ toInt16 ow) (hd2 : (1000 : Int) ∣ toInt16 sw) :
    (GetTmpComp oldBuf (mkTmpBus ow sw tw)).1 = SEN55_ERR_OK
    ∧ SetTmpComp (GetTmpComp oldBuf (mkTmpBus ow sw tw)).2.1
        (GetTmpComp oldBuf (mkTmpBus ow sw tw)).2.2.1
        (GetTmpComp oldBuf (mkTmpBus ow sw tw)).2.2.2
      = [0x60, 0xB2, ow / 256, ow % 256, I2C_calc_CRC (ow / 256) (ow % 256),
         sw / 256, sw % 256, I2C_calc_CRC (sw / 256) (sw % 256),
         tw / 256, tw % 256, I2C_calc_CRC (tw / 256) (tw % 256)] := by
  rw [GetTmpComp_decode oldBuf ow sw tw h1 h2 h3]
  refine ⟨rfl, ?_⟩
  unfold SetTmpComp
  rw [scale_roundtrip ow 200 h1 (by decide) hd1,
      scale_roundtrip sw 1000 h2 (by decide) hd2,
      Nat.mod_eq_of_lt h3]

/-- C3 amended, witness: raw words offset = 400 (2 × 200),
slope = 63536 (signed −2000 = −2 × 1000), time = 7 round-trip to
exactly the same raw words. -/
theorem C3_tmpComp_roundtrip_witness :
    (GetTmpComp [] (mkTmpBus 400 63536 7)).1 = SEN55_ERR_OK
    ∧ SetTmpComp (GetTmpComp [] (mkTmpBus 400 63536 7)).2.1
        (GetTmpComp [] (mkTmpBus 400 63536 7)).2.2.1
        (GetTmpComp [] (mkTmpBus 400 63536 7)).2.2.2
      = [0x60, 0xB2, 400 / 256, 400 % 256, I2C_calc_CRC (400 / 256) (400 % 256),
         63536 / 256, 63536 % 256, I2C_calc_CRC (63536 / 256) (63536 % 256),
         7 / 256, 7 % 256, I2C_calc_CRC (7 / 256) (7 % 256)] :=
  C3_tmpComp_roundtrip 400 63536 7 [] (by decide) (by decide) (by decide)
    ⟨2, by decide⟩ ⟨-2, by decide⟩

/-! ## Claim C4: CRC test vector -/

/-- C4 counterexample: the claim pins `I2C_calc_CRC` on input bytes
`0x00, 0x00` to `0xAC`; the implementation (and the Sensirion
datasheet algorithm) yields `0x81`, so the claim as stated is false.
(`0xAC` is the accumulator after only the FIRST zero byte.) -/
theorem C4_crc_zero_cex : ¬ I2C_calc_CRC 0 0 = 0xAC := by decide

/-- C4 amended: the checksum function (CRC-8, polynomial 0x31, initial
value 0xFF, no final XOR, MSB-first) applied to the input bytes
`0x00, 0x00` returns `0x81`. -/
theorem C4_crc_zero : I2C_calc_CRC 0 0 = 0x81 := by decide

/-! ## Claim C5: checksum mismatch aborts the decode -/

/-- C5: if the decoder reaches a 3-byte group whose third byte is not
the CRC of its first two bytes (all earlier groups being well-formed,
and — in zero-terminated mode — none of them being the terminating
`0x0000` word, since bytes after a terminator are flushed without
being processed), the transaction fails with `SEN55_ERR_PROTOCOL` and
the decoded output contains exactly the words of the earlier groups:
no word of the corrupted group, nor of any later group, is appended. -/
theorem C5_crc_mismatch_protocol (chk : Bool) (count : Nat)
    (gs : List (Nat × Nat × Nat)) (a b c : Nat) (rest : List Nat)
    (hgood : ∀ g ∈ gs, g.2.2 = I2C_calc_CRC g.1 g.2.1)
    (hnz : ∀ g ∈ gs, chk = true → ¬(g.1 = 0 ∧ g.2.1 = 0))
    (hbad : c ≠ I2C_calc_CRC a b)
    (hlen : (groupBytes gs ++ a :: b :: c :: rest).length = count / 2 * 3 % 256) :
    I2C_ReadToBuffer count chk (groupBytes gs ++ a :: b :: c :: rest)
      = ⟨SEN55_ERR_PROTOCOL, wordBytes gs⟩ := by
  have hskip : (wordBytes gs).length + 2 ≤ count := by
    have h1 := groupBytes_length gs
    have h2 : (groupBytes gs ++ a :: b :: c :: rest).length
        = (groupBytes gs).length + (3 + rest.length) := by
      simp [List.length_append]
      omega
    have h3 : count / 2 * 3 % 256 ≤ count / 2 * 3 := Nat.mod_le _ _
    rw [wordBytes_length]
    omega
  unfold I2C_ReadToBuffer
  rw [if_pos hlen, readLoop_skip chk count gs (a :: b :: c :: rest) [] hgood hnz
      (by have hw := wordBytes_length gs
          simp only [List.length_nil]
          omega)]
  simp only [List.nil_append, readLoop]
  rw [if_neg hbad]

/-- C5 witness: requesting 4 data bytes, the bus delivers a good group
`(1, 2, crc)` then a corrupted one (`99` is not the CRC of `3, 4`):
the decode fails with the protocol error and only the first word was
decoded. -/
theorem C5_crc_mismatch_protocol_witness :
    I2C_ReadToBuffer 4 false
        (groupBytes [(1, 2, I2C_calc_CRC 1 2)] ++ 3 :: 4 :: 99 :: [])
      = ⟨SEN55_ERR_PROTOCOL, wordBytes [(1, 2, I2C_calc_CRC 1 2)]⟩ :=
  C5_crc_mismatch_protocol false 4 [(1, 2, I2C_calc_CRC 1 2)] 3 4 99 []
    (by decide) (by decide) (by decide) (by decide)

/-! ## Claim C6: zero-terminated mode -/

/-- C6: in zero-terminated mode (serial number / product name), as
soon as a checksum-valid decoded word equals `0x0000` the decoder
stops and returns `SEN55_ERR_OK` with the words decoded so far
(terminator included), for ANY remaining bus bytes `rest` — they are
read and discarded without being decoded (the result does not depend
on them, not even on their checksums), and success is reported even
though fewer than the requested `count` data bytes were decoded. -/
theorem C6_zero_terminated (count : Nat) (gs : List (Nat × Nat × Nat))
    (rest : List Nat)
    (hgood : ∀ g ∈ gs, g.2.2 = I2C_calc_CRC g.1 g.2.1)
    (hnz : ∀ g ∈ gs, ¬(g.1 = 0 ∧ g.2.1 = 0))
    (hlen : (groupBytes gs ++ 0 :: 0 :: I2C_calc_CRC 0 0 :: rest).length
      = count / 2 * 3 % 256) :
    I2C_ReadToBuffer count true (groupBytes gs ++ 0 :: 0 :: I2C_calc_CRC 0 0 :: rest)
      = ⟨SEN55_ERR_OK, wordBytes gs ++ [0, 0]⟩ := by
  have hskip : (wordBytes gs).length + 2 ≤ count := by
    have h1 := groupBytes_length gs
    have h2 : (groupBytes gs ++ 0 :: 0 :: I2C_calc_CRC 0 0 :: rest).length
        = (groupBytes gs).length + (3 + rest.length) := by
      simp [List.length_append]
      omega
    have h3 : count / 2 * 3 % 256 ≤ count / 2 * 3 := Nat.mod_le _ _
    rw [wordBytes_length]
    omega
  unfold I2C_ReadToBuffer
  rw [if_pos hlen, readLoop_skip true count gs (0 :: 0 :: I2C_calc_CRC 0 0 :: rest) []
      (fun g hg => hgood g hg) (fun g hg _ => hnz g hg)
      (by have hw := wordBytes_length gs
          simp only [List.length_nil]
          omega)]
  simp [readLoop]

/-- C6 witness: requesting 6 data bytes (a 3-word response), the bus
delivers the word `0x4142`, then the terminator word `0x0000`, then 3
junk bytes with an invalid checksum: the decode returns OK with just
the 2 decoded words (4 data bytes instead of the 6 requested) and the
junk group is discarded undecoded. -/
theorem C6_zero_terminated_witness :
    I2C_ReadToBuffer 6 true
        (groupBytes [(0x41, 0x42, I2C_calc_CRC 0x41 0x42)]
          ++ 0 :: 0 :: I2C_calc_CRC 0 0 :: [9, 9, 9])
      = ⟨SEN55_ERR_OK, wordBytes [(0x41, 0x42, I2C_calc_CRC 0x41 0x42)] ++ [0, 0]⟩ :=
  C6_zero_terminated 6 [(0x41, 0x42, I2C_calc_CRC 0x41 0x42)] [9, 9, 9]
    (by decide) (by decide) (by decide)

/-! ## Claim C7: receive-count mismatch -/

/-- C7 counterexample: requesting 2 data bytes (expected wire count 3)
while the bus delivers 0 bytes makes `I2C_ReadToBuffer` fail with
`SEN55_ERR_PROTOCOL`, not with `SEN55_ERR_DATALENGTH` as the claim
states. -/
theorem C7_len_mismatch_cex :
    I2C_ReadToBuffer 2 false [] = ⟨SEN55_ERR_PROTOCOL, []⟩
      ∧ SEN55_ERR_PROTOCOL ≠ SEN55_ERR_DATALENGTH := by decide

/-- C7 amended: whenever the number of bytes received from the bus
differs from the expected wire byte count (`count / 2 * 3`, the 3
bytes per expected word, computed in `uint8_t` arithmetic), the read
fails with `SEN55_ERR_PROTOCOL` and decodes nothing.
(`SEN55_ERR_DATALENGTH` is reserved for the later check that the
decoded data-byte total matches the request.) -/
theorem C7_len_mismatch (count : Nat) (chk : Bool) (bus : List Nat)
    (h : bus.length ≠ count / 2 * 3 % 256) :
    I2C_ReadToBuffer count chk bus = ⟨SEN55_ERR_PROTOCOL, []⟩ := by
  unfold I2C_ReadToBuffer
  rw [if_neg h]

/-- C7 amended, witness: concrete instance of `C7_len_mismatch` at
`count = 2`, empty bus. -/
theorem C7_len_mismatch_witness :
    I2C_ReadToBuffer 2 false [] = ⟨SEN55_ERR_PROTOCOL, []⟩ :=
  C7_len_mismatch 2 false [] (by decide)

/-! ## Claim C8: auto-start on read while idle -/

/-- C8: a get-measurement call made while the session is idle
(`_started = false`) first sends the start-measurement opcode (with
its settle delays) and moves the session to the measuring state, and
only afterwards sends the measured-value read opcode: in each event
trace the start frame strictly precedes the read frame and the read
`requestFrom`, and the resulting state (already established by the
start step) has `started = true`.  This holds for `GetValues` with
and without laser and for `GetValuesPM`. -/
theorem C8_autostart_before_read (st : SENState) (bus : List Nat)
    (h : st.started = false) :
    (GetValues st true bus).2.1
      = [Event.send (cmdFrame SEN55_START_MEASUREMENT), Event.delayMs 1000,
         Event.delayMs 100, Event.send (cmdFrame SEN55_READ_MEASURED_VALUE),
         Event.delayMs 5, Event.busRead 24]
    ∧ (GetValues st false bus).2.1
      = [Event.send (cmdFrame SEN55_START_RHTG_MEASUREMENT), Event.delayMs 1000,
         Event.delayMs 100, Event.send (cmdFrame SEN55_READ_MEASURED_VALUE),
         Event.delayMs 5, Event.busRead 24]
    ∧ (GetValuesPM st bus).2.1
      = [Event.send (cmdFrame SEN55_START_MEASUREMENT), Event.delayMs 1000,
         Event.send (cmdFrame SEN55_READ_MEASURED_VALUE_PM),
         Event.delayMs 5, Event.busRead 30]
    ∧ (GetValues st true bus).1.started = true
    ∧ (GetValues st false bus).1.started = true
    ∧ (GetValuesPM st bus).1.started = true
    ∧ (Instruct st SEN55_START_MEASUREMENT).1.started = true := by
  refine ⟨?_, ?_, ?_, ?_, ?_, ?_, ?_⟩ <;>
    simp [GetValues, GetValuesPM, Instruct, readEvents, cmdFrame, h,
      SEN55_START_MEASUREMENT, SEN55_START_RHTG_MEASUREMENT,
      SEN55_START_FAN_CLEANING, SEN55_STOP_MEASUREMENT, SEN55_RESET,
      SEN55_READ_MEASURED_VALUE, SEN55_READ_MEASURED_VALUE_PM]

/-- C8 witness: the auto-start trace at a concrete idle state. -/
theorem C8_autostart_before_read_witness :
    (GetValues ⟨false, 2, 0, 0, 0⟩ true []).2.1
      = [Event.send (cmdFrame SEN55_START_MEASUREMENT), Event.delayMs 1000,
         Event.delayMs 100, Event.send (cmdFrame SEN55_READ_MEASURED_VALUE),
         Event.delayMs 5, Event.busRead 24]
    ∧ (GetValues ⟨false, 2, 0, 0, 0⟩ false []).2.1
      = [Event.send (cmdFrame SEN55_START_RHTG_MEASUREMENT), Event.delayMs 1000,
         Event.delayMs 100, Event.send (cmdFrame SEN55_READ_MEASURED_VALUE),
         Event.delayMs 5, Event.busRead 24]
    ∧ (GetValuesPM ⟨false, 2, 0, 0, 0⟩ []).2.1
      = [Event.send (cmdFrame SEN55_START_MEASUREMENT), Event.delayMs 1000,
         Event.send (cmdFrame SEN55_READ_MEASURED_VALUE_PM),
         Event.delayMs 5, Event.busRead 30]
    ∧ (GetValues ⟨false, 2, 0, 0, 0⟩ true []).1.started = true
    ∧ (GetValues ⟨false, 2, 0, 0, 0⟩ false []).1.started = true
    ∧ (GetValuesPM ⟨false, 2, 0, 0, 0⟩ []).1.started = true
    ∧ (Instruct ⟨false, 2, 0, 0, 0⟩ SEN55_START_MEASUREMENT).1.started = true :=
  C8_autostart_before_read ⟨false, 2, 0, 0, 0⟩ [] rfl

/-! ## Claim C9: error bits take precedence over cleaning-active -/

/-- C9: for every successfully read status-register response (firmware
cached at ≥ 2.0), writing `x1`/`x3` for receive-buffer bytes 1 and 3:
if any error condition (speed, gas, RH/T, laser, fan) holds,
`GetStatusReg` returns the sensor-fault code `SEN55_ERR_OUTOFRANGE`
(≠ `SEN55_ERR_OK`) with exactly the corresponding error bits in the
status out-parameter and without the cleaning-active bit, even if the
fan-clean hardware bit is set; the cleaning-active bit is reported
(with `SEN55_ERR_OK`) only when no error condition holds. -/
theorem C9_status_error_precedence (st : SENState) (oldBuf bus : List Nat)
    (x1 x3 : Nat)
    (hfw : 2 ≤ st.FW_Major)
    (hok : (I2C_ReadToBuffer 4 false bus).err = SEN55_ERR_OK)
    (hx1 : x1 = (updateReceiveBuf oldBuf (I2C_ReadToBuffer 4 false bus).buf).getD 1 0)
    (hx3 : x3 = (updateReceiveBuf oldBuf (I2C_ReadToBuffer 4 false bus).buf).getD 3 0) :
    ((x1 &&& 0b00100000 ≠ 0 ∨ x3 &&& 0b10000000 ≠ 0 ∨ x3 &&& 0b01000000 ≠ 0
        ∨ x3 &&& 0b00100000 ≠ 0 ∨ x3 &&& 0b00010000 ≠ 0) →
      (GetStatusReg st oldBuf bus).2 = SEN55_ERR_OUTOFRANGE
      ∧ SEN55_ERR_OUTOFRANGE ≠ SEN55_ERR_OK
      ∧ (GetStatusReg st oldBuf bus).1 &&& STATUS_FAN_CLEAN_ACTIVE_55 = 0
      ∧ ((GetStatusReg st oldBuf bus).1 &&& STATUS_SPEED_ERROR_55 ≠ 0
          ↔ x1 &&& 0b00100000 ≠ 0)
      ∧ ((GetStatusReg st oldBuf bus).1 &&& STATUS_GAS_ERROR_55 ≠ 0
          ↔ x3 &&& 0b10000000 ≠ 0)
      ∧ ((GetStatusReg st oldBuf bus).1 &&& STATUS_RHT_ERROR_55 ≠ 0
          ↔ x3 &&& 0b01000000 ≠ 0)
      ∧ ((GetStatusReg st oldBuf bus).1 &&& STATUS_LASER_ERROR_55 ≠ 0
          ↔ x3 &&& 0b00100000 ≠ 0)
      ∧ ((GetStatusReg st oldBuf bus).1 &&& STATUS_FAN_ERROR_55 ≠ 0
          ↔ x3 &&& 0b00010000 ≠ 0))
    ∧ (¬(x1 &&& 0b00100000 ≠ 0 ∨ x3 &&& 0b10000000 ≠ 0 ∨ x3 &&& 0b01000000 ≠ 0
        ∨ x3 &&& 0b00100000 ≠ 0 ∨ x3 &&& 0b00010000 ≠ 0) →
      (GetStatusReg st oldBuf bus).2 = SEN55_ERR_OK
      ∧ (GetStatusReg st oldBuf bus).1
          = if x1 &&& 0b00001000 ≠ 0 then STATUS_FAN_CLEAN_ACTIVE_55
            else STATUS_OK_55) := by
  have hunfold : GetStatusReg st oldBuf bus = statusDecode x1 x3 := by
    subst hx1
    subst hx3
    unfold GetStatusReg
    rw [if_pos hfw, if_pos hok]
  rw [hunfold]
  by_cases h1 : x1 &&& 0b00100000 ≠ 0 <;>
    by_cases h2 : x3 &&& 0b10000000 ≠ 0 <;>
    by_cases h3 : x3 &&& 0b01000000 ≠ 0 <;>
    by_cases h4 : x3 &&& 0b00100000 ≠ 0 <;>
    by_cases h5 : x3 &&& 0b00010000 ≠ 0 <;>
    simp [statusDecode, h1, h2, h3, h4, h5, apply_ite,
      STATUS_OK_55, STATUS_SPEED_ERROR_55, STATUS_GAS_ERROR_55,
      STATUS_RHT_ERROR_55, STATUS_LASER_ERROR_55, STATUS_FAN_ERROR_55,
      STATUS_FAN_CLEAN_ACTIVE_55, SEN55_ERR_OUTOFRANGE, SEN55_ERR_OK] <;>
    decide

/-- C9 witness: bus response `[0, 8, crc, 0, 128, crc]` — only the
gas-error bit (bit 7 of response byte 3) among the error bits, plus
the fan-clean hardware bit (bit 3 of byte 1): the result is
`SEN55_ERR_OUTOFRANGE` with exactly the gas-error status bit and no
cleaning-active indication. -/
theorem C9_status_error_precedence_witness :
    ((8 &&& 0b00100000 ≠ 0 ∨ 128 &&& 0b10000000 ≠ 0 ∨ 128 &&& 0b01000000 ≠ 0
        ∨ 128 &&& 0b00100000 ≠ 0 ∨ 128 &&& 0b00010000 ≠ 0) →
      (GetStatusReg ⟨false, 2, 0, 0, 0⟩ [] [0, 8, I2C_calc_CRC 0 8, 0, 128,
          I2C_calc_CRC 0 128]).2 = SEN55_ERR_OUTOFRANGE
      ∧ SEN55_ERR_OUTOFRANGE ≠ SEN55_ERR_OK
      ∧ (GetStatusReg ⟨false, 2, 0, 0, 0⟩ [] [0, 8, I2C_calc_CRC 0 8, 0, 128,
          I2C_calc_CRC 0 128]).1 &&& STATUS_FAN_CLEAN_ACTIVE_55 = 0
      ∧ ((GetStatusReg ⟨false, 2, 0, 0, 0⟩ [] [0, 8, I2C_calc_CRC 0 8, 0, 128,
          I2C_calc_CRC 0 128]).1 &&& STATUS_SPEED_ERROR_55 ≠ 0
          ↔ 8 &&& 0b00100000 ≠ 0)
      ∧ ((GetStatusReg ⟨false, 2, 0, 0, 0⟩ [] [0, 8, I2C_calc_CRC 0 8, 0, 128,
          I2C_calc_CRC 0 128]).1 &&& STATUS_GAS_ERROR_55 ≠ 0
          ↔ 128 &&& 0b10000000 ≠ 0)
      ∧ ((GetStatusReg ⟨false, 2, 0, 0, 0⟩ [] [0, 8, I2C_calc_CRC 0 8, 0, 128,
          I2C_calc_CRC 0 128]).1 &&& STATUS_RHT_ERROR_55 ≠ 0
          ↔ 128 &&& 0b01000000 ≠ 0)
      ∧ ((GetStatusReg ⟨false, 2, 0, 0, 0⟩ [] [0, 8, I2C_calc_CRC 0 8, 0, 128,
          I2C_calc_CRC 0 128]).1 &&& STATUS_LASER_ERROR_55 ≠ 0
          ↔ 128 &&& 0b00100000 ≠ 0)
      ∧ ((GetStatusReg ⟨false, 2, 0, 0, 0⟩ [] [0, 8, I2C_calc_CRC 0 8, 0, 128,
          I2C_calc_CRC 0 128]).1 &&& STATUS_FAN_ERROR_55 ≠ 0
          ↔ 128 &&& 0b00010000 ≠ 0))
    ∧ (¬(8 &&& 0b00100000 ≠ 0 ∨ 128 &&& 0b10000000 ≠ 0 ∨ 128 &&& 0b01000000 ≠ 0
        ∨ 128 &&& 0b00100000 ≠ 0 ∨ 128 &&& 0b00010000 ≠ 0) →
      (GetStatusReg ⟨false, 2, 0, 0, 0⟩ [] [0, 8, I2C_calc_CRC 0 8, 0, 128,
          I2C_calc_CRC 0 128]).2 = SEN55_ERR_OK
      ∧ (GetStatusReg ⟨false, 2, 0, 0, 0⟩ [] [0, 8, I2C_calc_CRC 0 8, 0, 128,
          I2C_calc_CRC 0 128]).1
          = if 8 &&& 0b00001000 ≠ 0 then STATUS_FAN_CLEAN_ACTIVE_55
            else STATUS_OK_55) :=
  C9_status_error_precedence ⟨false, 2, 0, 0, 0⟩ []
    [0, 8, I2C_calc_CRC 0 8, 0, 128, I2C_calc_CRC 0 128] 8 128
    (by decide) (by decide) (by decide) (by decide)

/-! ## Claim C10: error paths still overwrite the out-parameter -/

/-- C10: whenever one of the six out-parameter getters returns a
non-OK code, the out-parameter has nevertheless been assigned the
value decoded from the receive buffer (the buffer after the failed
read, `updateReceiveBuf oldBuf …`, which for a failed transfer keeps
bytes of earlier transactions); in particular, with an empty bus
transfer (`bus = []`, a receive-count mismatch) the caller gets the
decode of the UNCHANGED previous buffer content, not their original
variable value.  The final conjuncts exhibit this stale read-back for
`GetWarmStart` and `GetAutoCleanInt`. -/
theorem C10_error_path_overwrites_out (oldBuf bus2 bus4 bus6 bus12 : List Nat)
    (h2 : (I2C_ReadToBuffer 2 false bus2).err ≠ SEN55_ERR_OK)
    (h4 : (I2C_ReadToBuffer 4 false bus4).err ≠ SEN55_ERR_OK)
    (h6 : (I2C_ReadToBuffer 6 false bus6).err ≠ SEN55_ERR_OK)
    (h12 : (I2C_ReadToBuffer 12 false bus12).err ≠ SEN55_ERR_OK) :
    (GetWarmStart oldBuf bus2).2
      = byte_to_Uint16_t (updateReceiveBuf oldBuf (I2C_ReadToBuffer 2 false bus2).buf) 0
    ∧ (GetRHTAccelMode oldBuf bus2).2
      = byte_to_Uint16_t (updateReceiveBuf oldBuf (I2C_ReadToBuffer 2 false bus2).buf) 0
    ∧ (GetAutoCleanInt oldBuf bus4).2
      = byte_to_U32 (updateReceiveBuf oldBuf (I2C_ReadToBuffer 4 false bus4).buf) 0
    ∧ (GetNoxAlgorithm oldBuf bus12).2
      = (byte_to_int16_t (updateReceiveBuf oldBuf (I2C_ReadToBuffer 12 false bus12).buf) 0,
         byte_to_int16_t (updateReceiveBuf oldBuf (I2C_ReadToBuffer 12 false bus12).buf) 2,
         byte_to_int16_t (updateReceiveBuf oldBuf (I2C_ReadToBuffer 12 false bus12).buf) 4,
         byte_to_int16_t (updateReceiveBuf oldBuf (I2C_ReadToBuffer 12 false bus12).buf) 6,
         byte_to_int16_t (updateReceiveBuf oldBuf (I2C_ReadToBuffer 12 false bus12).buf) 8,
         byte_to_int16_t (updateReceiveBuf oldBuf (I2C_ReadToBuffer 12 false bus12).buf) 10)
    ∧ (GetVocAlgorithm oldBuf bus12).2 = (GetNoxAlgorithm oldBuf bus12).2
    ∧ (GetTmpComp oldBuf bus6).2
      = ((byte_to_int16_t (updateReceiveBuf oldBuf (I2C_ReadToBuffer 6 false bus6).buf) 0).tdiv 200,
         (byte_to_int16_t (updateReceiveBuf oldBuf (I2C_ReadToBuffer 6 false bus6).buf) 2).tdiv 1000,
         byte_to_Uint16_t (updateReceiveBuf oldBuf (I2C_ReadToBuffer 6 false bus6).buf) 4)
    ∧ (GetWarmStart oldBuf []).2 = byte_to_Uint16_t oldBuf 0
    ∧ (GetAutoCleanInt oldBuf []).2 = byte_to_U32 oldBuf 0 := by
  refine ⟨rfl, rfl, rfl, rfl, rfl, rfl, ?_, ?_⟩ <;>
    simp [GetWarmStart, GetAutoCleanInt, I2C_ReadToBuffer, updateReceiveBuf]

/-- C10 witness: with a stale buffer `[1,2,3,4]` and empty bus
transfers (receive-count mismatch, so every getter fails), the
out-values equal the decode of the stale buffer. -/
theorem C10_error_path_overwrites_out_witness :
    (GetWarmStart [1, 2, 3, 4] []).2
      = byte_to_Uint16_t (updateReceiveBuf [1, 2, 3, 4] (I2C_ReadToBuffer 2 false []).buf) 0
    ∧ (GetRHTAccelMode [1, 2, 3, 4] []).2
      = byte_to_Uint16_t (updateReceiveBuf [1, 2, 3, 4] (I2C_ReadToBuffer 2 false []).buf) 0
    ∧ (GetAutoCleanInt [1, 2, 3, 4] []).2
      = byte_to_U32 (updateReceiveBuf [1, 2, 3, 4] (I2C_ReadToBuffer 4 false []).buf) 0
    ∧ (GetNoxAlgorithm [1, 2, 3, 4] []).2
      = (byte_to_int16_t (updateReceiveBuf [1, 2, 3, 4] (I2C_ReadToBuffer 12 false []).buf) 0,
         byte_to_int16_t (updateReceiveBuf [1, 2, 3, 4] (I2C_ReadToBuffer 12 false []).buf) 2,
         byte_to_int16_t (updateReceiveBuf [1, 2, 3, 4] (I2C_ReadToBuffer 12 false []).buf) 4,
         byte_to_int16_t (updateReceiveBuf [1, 2, 3, 4] (I2C_ReadToBuffer 12 false []).buf) 6,
         byte_to_int16_t (updateReceiveBuf [1, 2, 3, 4] (I2C_ReadToBuffer 12 false []).buf) 8,
         byte_to_int16_t (updateReceiveBuf [1, 2, 3, 4] (I2C_ReadToBuffer 12 false []).buf) 10)
    ∧ (GetVocAlgorithm [1, 2, 3, 4] []).2 = (GetNoxAlgorithm [1, 2, 3, 4] []).2
    ∧ (GetTmpComp [1, 2, 3, 4] []).2
      = ((byte_to_int16_t (updateReceiveBuf [1, 2, 3, 4] (I2C_ReadToBuffer 6 false []).buf) 0).tdiv 200,
         (byte_to_int16_t (updateReceiveBuf [1, 2, 3, 4] (I2C_ReadToBuffer 6 false []).buf) 2).tdiv 1000,
         byte_to_Uint16_t (updateReceiveBuf [1, 2, 3, 4] (I2C_ReadToBuffer 6 false []).buf) 4)
    ∧ (GetWarmStart [1, 2, 3, 4] []).2 = byte_to_Uint16_t [1, 2, 3, 4] 0
    ∧ (GetAutoCleanInt [1, 2, 3, 4] []).2 = byte_to_U32 [1, 2, 3, 4] 0 :=
  C10_error_path_overwrites_out [1, 2, 3, 4] [] [] [] []
    (by decide) (by decide) (by decide) (by decide)

end SEN55
